import Mathlib

/-!
Shallow embedding of the Mark7App authenticated API client
(`src/unnamed/part_001`, the `ApiService` class built on axios and
AsyncStorage) together with the form validation of the login/signup screen
(`src/components/expo-login-signup.tsx`), and proofs settling the frozen
claims about the natural-language specification of this client.

Modelling conventions:
* JSON values (the TypeScript `any` bodies) are a first-order `Json` type.
  Sequences inside arrays and objects are encoded with dedicated
  constructors (`nil`, `consElem`, `consField`) so that the type is a plain
  non-nested inductive: equality is decidable and every function on it is
  structural, hence kernel-reducible.
* AsyncStorage is an association list from keys to strings.
* One HTTP exchange is a `TransportOutcome`: axios resolves exactly on a
  2xx response (`success`, carrying the parsed body, which axios exposes as
  `response.data`), and rejects with an `AxiosError` on a non-2xx response
  (`httpError`), on a connectivity failure with no response
  (`networkError`), and on a timeout (`timeoutError`, axios code
  `ECONNABORTED`, no response either).
* A value reaching a `catch` block is a `JsError`: either a genuine
  `AxiosError` (for which `axios.isAxiosError` answers true) or a plain
  `Error` with only a message (for which it answers false).
* Each `ApiService` method is a constructor of `Op`; `runOp` gives the
  method body semantics: the request interceptor, the response
  interceptor and the per-method try/catch are each embedded separately
  below and composed exactly as the source composes them.
-/

/-- JSON values, the shape of request and response bodies.  `arr`/`obj`
hold a sequence built from `nil`, `consElem` and `consField`. -/
inductive Json where
  | null : Json
  | str (s : String) : Json
  | num (n : Int) : Json
  | bool (b : Bool) : Json
  | arr (elems : Json) : Json
  | obj (fields : Json) : Json
  | nil : Json
  | consElem (head tail : Json) : Json
  | consField (key : String) (value tail : Json) : Json
  deriving DecidableEq, Repr

/-- Look a key up in a `consField` sequence; a missing key is JavaScript
`undefined`, which we conflate with `null` (both are falsy and neither is
ever compared to a present value by the source). -/
def Json.findField : Json → String → Json
  | .consField k v rest, key => if k = key then v else rest.findField key
  | _, _ => .null

/-- `body.k` on a JSON value: field access on objects, `undefined`
(modelled `null`) on everything else, as with the optional chaining
`error.response?.data?.message` in the source. -/
def Json.getField : Json → String → Json
  | .obj fields, key => fields.findField key
  | _, _ => .null

/-- Build an object from a list of key/value pairs. -/
def Json.fieldsOf : List (String × Json) → Json
  | [] => .nil
  | (k, v) :: rest => .consField k v (Json.fieldsOf rest)

/-- Convenience constructor for object literals. -/
def Json.mkObj (kvs : List (String × Json)) : Json :=
  .obj (Json.fieldsOf kvs)

/-- JavaScript truthiness: `null`/`undefined`, the empty string, `0` and
`false` are falsy; arrays and objects are always truthy. -/
def Json.truthy : Json → Bool
  | .null => false
  | .str s => s ≠ ""
  | .num n => n ≠ 0
  | .bool b => b
  | _ => true

/-- JavaScript string coercion `String(v)`, used where the source feeds a
JSON value into a string position (`AsyncStorage.setItem` for the token,
`new Error(message)`).  On the string-typed fields the source actually
passes this is the identity; the other cases follow `String()` on
primitives, `[object Object]` on objects and comma-joining on arrays. -/
def Json.toJsString : Json → String
  | .null => "null"
  | .str s => s
  | .num n => toString n
  | .bool b => if b then "true" else "false"
  | .obj _ => "[object Object]"
  | .arr elems => elems.toJsString
  | .nil => ""
  | .consElem h .nil => h.toJsString
  | .consElem h rest => h.toJsString ++ "," ++ rest.toJsString
  | .consField _ _ _ => ""

/-- AsyncStorage: a persistent key/value store of strings. -/
abbrev Storage := List (String × String)

/-- `AsyncStorage.getItem`: `null` (here `none`) when the key is absent. -/
def Storage.getItem (store : Storage) (key : String) : Option String :=
  (store.find? (fun kv => kv.1 == key)).map (fun kv => kv.2)

/-- `AsyncStorage.setItem`: store a value under a key, replacing any
previous binding. -/
def Storage.setItem (store : Storage) (key value : String) : Storage :=
  (key, value) :: store.filter (fun kv => kv.1 != key)

/-- `AsyncStorage.removeItem`: delete the binding of a key. -/
def Storage.removeItem (store : Storage) (key : String) : Storage :=
  store.filter (fun kv => kv.1 != key)

/-- HTTP headers of one request. -/
abbrev Headers := List (String × String)

/-- Read a header value. -/
def getHeader (hs : Headers) (key : String) : Option String :=
  (hs.find? (fun kv => kv.1 == key)).map (fun kv => kv.2)

/-- `config.headers[key] = value`: replace an existing entry, otherwise
append one. -/
def setHeader (hs : Headers) (key value : String) : Headers :=
  if hs.any (fun kv => kv.1 == key) then
    hs.map (fun kv => if kv.1 == key then (key, value) else kv)
  else
    hs ++ [(key, value)]

/-- One outgoing HTTP request as assembled by the client. -/
structure Request where
  method : String
  url : String
  body : Option Json
  headers : Headers
  deriving DecidableEq, Repr

/-- The fixed base address baked into the client. -/
def BASE_URL : String := "https://mark77.onrender.com/"

/-- The instance-level default headers from `axios.create`. -/
def defaultHeaders : Headers := [("Content-Type", "application/json")]

/-- Outcome of one HTTP exchange, seen from axios: resolve on 2xx with the
parsed body (`response.data`), reject otherwise. -/
inductive TransportOutcome where
  | success (body : Json) : TransportOutcome
  | httpError (httpStatus : Nat) (body : Json) (errMessage : String) : TransportOutcome
  | networkError (errMessage : String) : TransportOutcome
  | timeoutError (errMessage : String) : TransportOutcome
  deriving DecidableEq, Repr

/-- The fields of an `AxiosError` that the source inspects:
`error.response?.data` (the body of a received non-2xx response, absent
when no response arrived), `error.code`, and `error.message`. -/
structure AxiosErrorShape where
  responseBody : Option Json
  code : Option String
  message : String
  deriving DecidableEq, Repr

/-- A value reaching a `catch` block: a genuine `AxiosError` (on which
`axios.isAxiosError` answers true) or a plain `Error` carrying only a
message (on which it answers false). -/
inductive JsError where
  | axiosErr (e : AxiosErrorShape) : JsError
  | plainErr (message : String) : JsError
  deriving DecidableEq, Repr

/-- `error.message`. -/
def JsError.message : JsError → String
  | .axiosErr a => a.message
  | .plainErr m => m

/-- `ApiService.handleApiError` (source lines 129-133): the message of the
returned plain `Error` is
`error.response?.data?.message || error.message || 'An unexpected error occurred'`,
`||` selecting the first truthy operand. -/
def handleApiError (error : JsError) : String :=
  let respMessage : Json :=
    match error with
    | .axiosErr a =>
      match a.responseBody with
      | some body => body.getField "message"
      | none => Json.null
    | .plainErr _ => Json.null
  if respMessage.truthy then respMessage.toJsString
  else if error.message ≠ "" then error.message
  else "An unexpected error occurred"

/-- The `AxiosError` that axios hands to the response interceptor for each
failing transport outcome.  A timeout carries code `ECONNABORTED` and, like
a connectivity failure, no response. -/
def axiosErrorOf : TransportOutcome → Option AxiosErrorShape
  | .success _ => none
  | .httpError _ body errMessage =>
    some { responseBody := some body, code := none, message := errMessage }
  | .networkError errMessage =>
    some { responseBody := none, code := none, message := errMessage }
  | .timeoutError errMessage =>
    some { responseBody := none, code := some "ECONNABORTED", message := errMessage }

/-- What one `await this.api.request(...)` yields inside a method body: the
response interceptor (source lines 113-118) passes a 2xx response through
and replaces every `AxiosError` by the PLAIN `Error` built by
`handleApiError` - so method-level `catch` blocks never see an
`AxiosError`. -/
def apiCall (t : TransportOutcome) : Except JsError Json :=
  match t with
  | .success body => .ok body
  | .httpError _httpStatus body errMessage =>
    .error (.plainErr (handleApiError (.axiosErr
      { responseBody := some body, code := none, message := errMessage })))
  | .networkError errMessage =>
    .error (.plainErr (handleApiError (.axiosErr
      { responseBody := none, code := none, message := errMessage })))
  | .timeoutError errMessage =>
    .error (.plainErr (handleApiError (.axiosErr
      { responseBody := none, code := some "ECONNABORTED", message := errMessage })))

/-- The `catch` block of `ApiService.login` (source lines 157-167): such
branches exist for a connectivity failure and for a timeout, but they fire
only on values for which `axios.isAxiosError` answers true; everything
else goes to `handleApiError`. -/
def loginCatch (error : JsError) : String :=
  match error with
  | .axiosErr a =>
    if a.responseBody = none then "Please check your internet connection and try again"
    else if a.code = some "ECONNABORTED" then "Request timed out. Please try again"
    else handleApiError error
  | .plainErr _ => handleApiError error

/-- The operations `ApiService` exposes, one constructor per method.
Payload-taking methods carry their payload. -/
inductive Op where
  | login (username password : String)
  | register (userData : Json)
  | logout
  | getStudentProfile
  | updateStudentProfile (data : Json)
  | markAttendance (data : Json)
  | getTimetableEntries
  | getTimetable
  | getAttendanceHistory
  | getAttendanceAnalytics
  | getAttendanceReport
  | requestAttendanceCorrection (data : Json)
  | getFacultyProfile
  | updateFacultyProfile (data : Json)
  | enterTimetable (data : Json)
  | getAttendanceStatistics
  | getDetainedStudents
  | exportAttendance
  | getUnreadNotifications
  | getOverallAnalytics
  | getPendingRequests
  | checkout
  | getStudentAnalytics
  | getStudentsByAttendance
  | updateAttendance (data : Json)
  deriving DecidableEq, Repr

/-- The HTTP request each operation assembles, before the request
interceptor runs (method, path relative to `BASE_URL`, body, headers).
`logout` performs no network call. -/
def requestOf : Op → Option Request
  | .login username password =>
    some { method := "post", url := "/shared/login",
           body := some (Json.mkObj
             [("username", .str username), ("password", .str password)]),
           headers := [("Content-Type", "application/json"),
                       ("Accept", "application/json")] }
  | .register userData =>
    some { method := "post", url := "/shared/register",
           body := some userData, headers := defaultHeaders }
  | .logout => none
  | .getStudentProfile =>
    some { method := "get", url := "/student/profile",
           body := none, headers := defaultHeaders }
  | .updateStudentProfile d =>
    some { method := "put", url := "/student/profile",
           body := some d, headers := defaultHeaders }
  | .markAttendance d =>
    some { method := "post", url := "/student/mark_attendance",
           body := some d, headers := defaultHeaders }
  | .getTimetableEntries =>
    some { method := "get", url := "/faculty/view_timetable",
           body := none, headers := defaultHeaders }
  | .getTimetable =>
    some { method := "get", url := "/student/view_timetable",
           body := none, headers := defaultHeaders }
  | .getAttendanceHistory =>
    some { method := "get", url := "/student/attendance_history",
           body := none, headers := defaultHeaders }
  | .getAttendanceAnalytics =>
    some { method := "get", url := "/student/attendance_analytics",
           body := none, headers := defaultHeaders }
  | .getAttendanceReport =>
    some { method := "get", url := "/student/attendance_report",
           body := none, headers := defaultHeaders }
  | .requestAttendanceCorrection d =>
    some { method := "post", url := "/student/request_correction",
           body := some d, headers := defaultHeaders }
  | .getFacultyProfile =>
    some { method := "get", url := "/faculty/profile",
           body := none, headers := defaultHeaders }
  | .updateFacultyProfile d =>
    some { method := "put", url := "/faculty/profile",
           body := some d, headers := defaultHeaders }
  | .enterTimetable d =>
    some { method := "post", url := "/faculty/enter_timetable",
           body := some d, headers := defaultHeaders }
  | .getAttendanceStatistics =>
    some { method := "get", url := "/faculty/attendance_statistics",
           body := none, headers := defaultHeaders }
  | .getDetainedStudents =>
    some { method := "get", url := "/faculty/detained_students",
           body := none, headers := defaultHeaders }
  | .exportAttendance =>
    some { method := "get", url := "/faculty/export_attendance",
           body := none, headers := defaultHeaders }
  | .getUnreadNotifications =>
    some { method := "get", url := "/faculty/notifications",
           body := none, headers := defaultHeaders }
  | .getOverallAnalytics =>
    some { method := "get", url := "/faculty/overall_analytics",
           body := none, headers := defaultHeaders }
  | .getPendingRequests =>
    some { method := "get", url := "/faculty/pending_requests",
           body := none, headers := defaultHeaders }
  | .checkout =>
    some { method := "post", url := "/student/checkout",
           body := none, headers := defaultHeaders }
  | .getStudentAnalytics =>
    some { method := "get", url := "/faculty/student_analytics",
           body := none, headers := defaultHeaders }
  | .getStudentsByAttendance =>
    some { method := "get", url := "/faculty/students_by_attendance",
           body := none, headers := defaultHeaders }
  | .updateAttendance d =>
    some { method := "put", url := "/faculty/update_attendance",
           body := some d, headers := defaultHeaders }

/-- The request interceptor (source lines 102-109): read the stored token;
`if (token)` - present and nonempty - attach `Authorization: Bearer t`,
otherwise send the request unchanged. -/
def requestInterceptor (store : Storage) (config : Request) : Request :=
  match store.getItem "token" with
  | some token =>
    if token ≠ "" then
      { config with headers := setHeader config.headers "Authorization" ("Bearer " ++ token) }
    else config
  | none => config

/-- The request an operation actually puts on the wire: the assembled
request after the request interceptor ran against the current storage. -/
def issuedRequest (store : Storage) (op : Op) : Option Request :=
  (requestOf op).map (requestInterceptor store)

/-- The in-memory and persistent state owned by the client: the backing
AsyncStorage and the private `currentUser` field. -/
structure ClientState where
  storage : Storage
  currentUser : Option Json
  deriving DecidableEq, Repr

/-- The state right after `new ApiService()` on a fresh install:
`currentUser` initialised to `null`, storage empty. -/
def clientInit : ClientState := { storage := [], currentUser := none }

/-- Run one `ApiService` method against a given transport outcome.  The
first component is what the returned promise settles to: `ok` with the
value returned, or `error` with the message of the raised `Error`. -/
def runOp (op : Op) (s : ClientState) (t : TransportOutcome) :
    Except String Json × ClientState :=
  match op with
  | .logout =>
    (.ok .null,
     { s with storage := s.storage.removeItem "token", currentUser := none })
  | .login _ _ =>
    match apiCall t with
    | .ok body =>
      if body.getField "status" = Json.str "success" ∧ (body.getField "token").truthy = true then
        (.ok body,
         { s with storage := s.storage.setItem "token" (body.getField "token").toJsString })
      else
        (.error (loginCatch (.plainErr "Invalid login response")), s)
    | .error e => (.error (loginCatch e), s)
  | .register _ =>
    match apiCall t with
    | .ok body => (.ok body, s)
    | .error e => (.error (handleApiError e), s)
  | .checkout =>
    match apiCall t with
    | .ok body => (.ok body, s)
    | .error e => (.error (handleApiError e), s)
  | .getStudentAnalytics =>
    match apiCall t with
    | .ok body => (.ok body, s)
    | .error e => (.error (handleApiError e), s)
  | _ =>
    match apiCall t with
    | .ok body => (.ok body, s)
    | .error e => (.error e.message, s)

/-- Run a list of operations, each with its transport outcome, from a
given state. -/
def runScript (ops : List (Op × TransportOutcome)) (s : ClientState) : ClientState :=
  ops.foldl (fun st p => (runOp p.1 st p.2).2) s

/-- The operations whose body is a bare `request; return response.data`
with no status inspection and no token handling: everything except `login`
and `logout`. -/
def isEnvelopePassthrough : Op → Bool
  | .login _ _ => false
  | .logout => false
  | _ => true

/-- The operations that perform a network call: everything except
`logout`. -/
def usesTransport : Op → Bool
  | .logout => false
  | _ => true

/-- Decidable equality of promise results, so concrete runs can be settled
by evaluation. -/
instance {α β : Type} [DecidableEq α] [DecidableEq β] : DecidableEq (Except α β) := fun a b =>
  match a, b with
  | .ok x, .ok y =>
    match decEq x y with
    | isTrue h => isTrue (h ▸ rfl)
    | isFalse h => isFalse (fun hc => h (Except.ok.inj hc))
  | .error x, .error y =>
    match decEq x y with
    | isTrue h => isTrue (h ▸ rfl)
    | isFalse h => isFalse (fun hc => h (Except.error.inj hc))
  | .ok _, .error _ => isFalse (fun hc => Except.noConfusion hc)
  | .error _, .ok _ => isFalse (fun hc => Except.noConfusion hc)

/-- The form state of the login/signup screen
(`src/components/expo-login-signup.tsx`), one field per `formData` entry. -/
structure FormData where
  id : String
  name : String
  role : String
  email : String
  password : String
  year : String
  branch : String
  department : String
  username : String
  deriving DecidableEq, Repr

/-- `formData[field]` for the dynamic field names `validateForm` loops
over. -/
def FormData.fieldValue (f : FormData) : String → String
  | "id" => f.id
  | "name" => f.name
  | "role" => f.role
  | "email" => f.email
  | "password" => f.password
  | "year" => f.year
  | "branch" => f.branch
  | "department" => f.department
  | "username" => f.username
  | _ => ""

/-- A character of the class `[^\s@]` of the email pattern: neither
whitespace nor `@`. -/
def isEmailClassChar (c : Char) : Bool :=
  !c.isWhitespace && c ≠ '@'

/-- Split a character list at every occurrence of a separator. -/
def splitAtChar : List Char → Char → List (List Char)
  | [], _ => [[]]
  | x :: rest, c =>
    match splitAtChar rest c with
    | [] => [[]]
    | g :: gs => if x = c then [] :: g :: gs else (x :: g) :: gs

/-- The test of the email pattern `^[^\s@]+@[^\s@]+\.[^\s@]+$`: the string
splits at a unique `@` into a nonempty whitespace-free local part and a
remainder that is nonempty, whitespace-free and has a dot with at least
one character on each side. -/
def emailRegexTest (s : String) : Bool :=
  match splitAtChar s.toList '@' with
  | [lpart, rpart] =>
    !lpart.isEmpty && lpart.all isEmailClassChar &&
    !rpart.isEmpty && rpart.all isEmailClassChar &&
    (rpart.drop 1).dropLast.contains '.'
  | _ => false

/-- `validatePassword` of the login/signup screen: at least 8 characters,
an uppercase letter, a digit, and a special character from `!@#$%^&*`. -/
def validatePassword (password : String) : Bool :=
  if password.length < 8 then false
  else if !password.toList.any (fun c => 'A' ≤ c && c ≤ 'Z') then false
  else if !password.toList.any (fun c => '0' ≤ c && c ≤ '9') then false
  else if !password.toList.any (fun c => "!@#$%^&*".toList.contains c) then false
  else true

/-- `validateForm` of the login/signup screen: on the login tab, both
username and password must be nonempty; on the signup tab, the required
fields (role-dependent: year and branch for a student, department for
faculty) must all be nonempty, the email must pass the pattern test and
the password the strength test.  Empty string is the only falsy string. -/
def validateForm (isLogin : Bool) (f : FormData) : Bool :=
  if isLogin then
    if f.username = "" ∨ f.password = "" then false else true
  else
    let requiredFields : List String :=
      ["id", "name", "email", "password"] ++
        (if f.role = "student" then ["year", "branch"]
         else if f.role = "faculty" then ["department"]
         else [])
    if requiredFields.any (fun fld => f.fieldValue fld == "") then false
    else if !emailRegexTest f.email then false
    else if !validatePassword f.password then false
    else true

/-! ### Shared lemmas about the embedded client -/

/-- Every method except `login` and `logout` is a bare
`request; return response.data`: on a 2xx response it returns the whole
parsed body, whatever the envelope says. -/
theorem runOp_success_passthrough (op : Op) (h : isEnvelopePassthrough op = true)
    (s : ClientState) (body : Json) :
    (runOp op s (.success body)).1 = .ok body := by
  cases op <;> first | rfl | exact Bool.noConfusion h

/-- `handleApiError` on an `AxiosError` that carries a response whose body
has a nonempty string `message` field returns that message. -/
theorem handleApiError_axios_msg (body : Json) (code : Option String) (axMsg msg : String)
    (hm : body.getField "message" = Json.str msg) (hne : msg ≠ "") :
    handleApiError (.axiosErr { responseBody := some body, code := code, message := axMsg })
      = msg := by
  simp [handleApiError, hm, Json.truthy, Json.toJsString, hne]

/-- `handleApiError` on a plain `Error` with a nonempty message returns
that message unchanged. -/
theorem handleApiError_plain (m : String) (hne : m ≠ "") :
    handleApiError (.plainErr m) = m := by
  simp [handleApiError, Json.truthy, JsError.message, hne]

/-- On a non-2xx response whose body has a nonempty string `message`
field, every network operation raises an error with exactly that message:
the response interceptor builds it via `handleApiError`, and the
method-level catch blocks pass it through. -/
theorem runOp_httpError_message (op : Op) (h : usesTransport op = true)
    (s : ClientState) (httpSt : Nat) (body : Json) (axMsg msg : String)
    (hm : body.getField "message" = Json.str msg) (hne : msg ≠ "") :
    (runOp op s (.httpError httpSt body axMsg)).1 = .error msg := by
  cases op <;> first
    | exact Bool.noConfusion h
    | simp [runOp, apiCall, JsError.message, loginCatch,
        handleApiError_axios_msg body none axMsg msg hm hne, handleApiError_plain msg hne]

/-! ### Claim C1 -/

/-- A 2xx envelope with a `data` payload distinct from the envelope. -/
def envC1 : Json := Json.mkObj
  [("status", .str "success"), ("message", .str "ok"), ("data", .str "payload")]

/-- A 2xx envelope for the student timetable endpoint. -/
def envC1T : Json := Json.mkObj
  [("status", .str "success"), ("message", .str "ok"), ("timetable", .arr .nil)]

/-- Claim C1 is false on the code: on a 2xx response with envelope status
`success`, `getStudentProfile` returns the WHOLE envelope (axios
`response.data` is the parsed body), not the envelope field `data`; and
`getTimetable` likewise returns the envelope, not its `timetable` field. -/
theorem c1_counterexample :
    (runOp Op.getStudentProfile clientInit (.success envC1)).1 = .ok envC1 ∧
    (runOp Op.getStudentProfile clientInit (.success envC1)).1
      ≠ .ok (envC1.getField "data") ∧
    (runOp Op.getTimetable clientInit (.success envC1T)).1 = .ok envC1T ∧
    (runOp Op.getTimetable clientInit (.success envC1T)).1
      ≠ .ok (envC1T.getField "timetable") := by decide

/-- Claim C1 as amended: when the transport succeeds with a 2xx response,
every operation other than login and logout returns the whole response
envelope unmodified to the caller; no operation extracts the `data` (or
`timetable`) field. -/
theorem c1_amended_envelope_returned (op : Op) (h : isEnvelopePassthrough op = true)
    (s : ClientState) (body : Json) :
    (runOp op s (.success body)).1 = .ok body :=
  runOp_success_passthrough op h s body

/-- Concrete instance of the amended claim C1. -/
theorem c1_witness :
    (runOp Op.getStudentProfile clientInit (.success envC1)).1 = .ok envC1 :=
  c1_amended_envelope_returned Op.getStudentProfile (by decide) clientInit envC1

/-! ### Claim C4 -/

/-- Claim C4 names a code bug: on a timeout, login surfaces the raw axios
message `timeout of 15000ms exceeded` instead of the fixed
`Request timed out. Please try again` - the response interceptor has
already replaced the `AxiosError` by a plain `Error`, so the dedicated
timeout branch in the login catch block never fires; moreover, even fed
the raw `AxiosError`, that catch block tests `!error.response` first, and
a timeout carries no response, so it would produce the connectivity
message rather than the timeout message. -/
theorem c4_timeout_message_bug :
    (runOp (Op.login "alice" "Secret1!") clientInit
        (.timeoutError "timeout of 15000ms exceeded")).1
      = .error "timeout of 15000ms exceeded" ∧
    "timeout of 15000ms exceeded" ≠ "Request timed out. Please try again" ∧
    loginCatch (.axiosErr
        { responseBody := none, code := some "ECONNABORTED",
          message := "timeout of 15000ms exceeded" })
      = "Please check your internet connection and try again" := by decide

/-! ### Claim C5 -/

/-- Claim C5 names a code bug: on a connectivity failure with no response,
login (and every other operation) surfaces the raw axios message
`Network Error` instead of the fixed connectivity message - the response
interceptor normalizes the `AxiosError` into a plain `Error` built from
`error.message`, so the connectivity branch of the login catch block never
fires, and no other operation even attempts such a mapping. -/
theorem c5_connectivity_message_bug :
    (runOp (Op.login "alice" "Secret1!") clientInit (.networkError "Network Error")).1
      = .error "Network Error" ∧
    (runOp Op.getStudentProfile clientInit (.networkError "Network Error")).1
      = .error "Network Error" ∧
    "Network Error" ≠ "Please check your internet connection and try again" := by decide

/-! ### Claim C6 -/

/-- The mock backend reply of the claim C6 scenario. -/
def envC6 : Json := Json.mkObj
  [("status", .str "success"), ("token", .str "T1"), ("message", .str "Login successful")]

/-- Claim C6: after login against a backend replying
`status success, token T1`, the persistent store holds `T1` under the
token key, and a subsequent profile fetch is issued with header
`Authorization: Bearer T1`. -/
theorem c6_login_then_profile :
    ((runOp (Op.login "alice" "Secret1!") clientInit (.success envC6)).2).storage.getItem "token"
      = some "T1" ∧
    (issuedRequest ((runOp (Op.login "alice" "Secret1!") clientInit (.success envC6)).2).storage
        Op.getStudentProfile).map (fun r => getHeader r.headers "Authorization")
      = some (some "Bearer T1") := by decide

/-! ### Claim C9 -/

/-- Claim C9: when the transport succeeds (2xx) but the envelope status is
not `success`, or its token field is absent or empty, login raises
`Invalid login response` and leaves the persistent store (and the whole
client state) unchanged. -/
theorem c9_invalid_login_response (u p : String) (s : ClientState) (body : Json)
    (h : body.getField "status" ≠ Json.str "success" ∨
         body.getField "token" = Json.null ∨ body.getField "token" = Json.str "") :
    runOp (Op.login u p) s (.success body) = (.error "Invalid login response", s) := by
  simp only [runOp, apiCall]
  rw [if_neg]
  · rfl
  · rintro ⟨h1, h2⟩
    rcases h with hx | hx | hx
    · exact hx h1
    · rw [hx] at h2; exact Bool.noConfusion h2
    · rw [hx] at h2; simp [Json.truthy] at h2

/-- A 2xx reply with a failing envelope status. -/
def envC9 : Json := Json.mkObj
  [("status", .str "error"), ("message", .str "Invalid credentials")]

/-- Concrete instance of claim C9. -/
theorem c9_witness :
    runOp (Op.login "alice" "Secret1!") clientInit (.success envC9)
      = (.error "Invalid login response", clientInit) :=
  c9_invalid_login_response "alice" "Secret1!" clientInit envC9 (Or.inl (by decide))

/-! ### Claim C2 -/

/-- Reading a header right after writing it yields the written value. -/
theorem getHeader_cons (kv : String × String) (rest : Headers) (k : String) :
    getHeader (kv :: rest) k = if kv.1 == k then some kv.2 else getHeader rest k := by
  by_cases h : (kv.1 == k) = true <;> simp [getHeader, List.find?, h]

/-- Appending a fresh header makes it readable when no entry with its key
was present. -/
theorem getHeader_append_not_found (hs : Headers) (k v : String)
    (h : hs.any (fun kv => kv.1 == k) = false) :
    getHeader (hs ++ [(k, v)]) k = some v := by
  induction hs with
  | nil => simp [getHeader, List.find?]
  | cons kv rest ih =>
    simp only [List.any_cons, Bool.or_eq_false_iff] at h
    rw [List.cons_append, getHeader_cons, if_neg (by simp [h.1])]
    exact ih h.2

/-- Replacing every entry of a key that does occur makes the new value
readable. -/
theorem getHeader_replace_found (hs : Headers) (k v : String)
    (h : hs.any (fun kv => kv.1 == k) = true) :
    getHeader (hs.map (fun kv => if kv.1 == k then (k, v) else kv)) k = some v := by
  induction hs with
  | nil => simp at h
  | cons kv rest ih =>
    simp only [List.any_cons, Bool.or_eq_true] at h
    by_cases hk : (kv.1 == k) = true
    · simp only [List.map_cons, hk, if_true]
      rw [getHeader_cons]
      simp
    · have hr : rest.any (fun x => x.1 == k) = true := by
        rcases h with h | h
        · exact absurd h hk
        · exact h
      have hkf : (kv.1 == k) = false := by
        cases hb : (kv.1 == k) with
        | true => exact absurd hb hk
        | false => rfl
      simp only [List.map_cons]
      rw [getHeader_cons]
      simp only [hkf, Bool.false_eq_true, if_false]
      exact ih hr

/-- After `setHeader`, the header reads back as the written value. -/
theorem getHeader_setHeader_self (hs : Headers) (k v : String) :
    getHeader (setHeader hs k v) k = some v := by
  unfold setHeader
  cases hany : hs.any (fun kv => kv.1 == k) with
  | true => simp only [hany, if_true]; exact getHeader_replace_found hs k v hany
  | false => simp only [hany, Bool.false_eq_true, if_false]; exact getHeader_append_not_found hs k v hany

/-- No operation assembles its request with an authorization header of its
own: only the request interceptor ever adds one. -/
theorem requestOf_no_auth (op : Op) : ∀ req, requestOf op = some req →
    getHeader req.headers "Authorization" = none := by
  cases op <;> intro req h <;>
    first
      | (injection h with h2; subst h2; rfl)
      | injection h

/-- With a nonempty stored token the interceptor attaches the bearer
header. -/
theorem requestInterceptor_token (store : Storage) (config : Request) (t : String)
    (ht : store.getItem "token" = some t) (hne : t ≠ "") :
    requestInterceptor store config
      = { config with headers := setHeader config.headers "Authorization" ("Bearer " ++ t) } := by
  simp [requestInterceptor, ht, hne]

/-- With no stored token, or an empty stored token (falsy in JavaScript),
the interceptor leaves the request untouched. -/
theorem requestInterceptor_no_token (store : Storage) (config : Request)
    (h : store.getItem "token" = none ∨ store.getItem "token" = some "") :
    requestInterceptor store config = config := by
  rcases h with h | h <;> simp [requestInterceptor, h]

/-- Claim C2 is false on the code at one point: the empty string is a
token string present in storage, yet `if (token)` is falsy on it, so the
issued request carries no authorization header instead of `Bearer `. -/
theorem c2_counterexample :
    Storage.getItem [("token", "")] "token" = some "" ∧
    (issuedRequest [("token", "")] Op.getStudentProfile).map
        (fun r => getHeader r.headers "Authorization") = some none := by decide

/-- Claim C2 as amended: for every outgoing request of every client
operation, if a NONEMPTY token t is stored at send time the request
carries `Authorization: Bearer t`; if no token is stored, or the stored
token is the empty string, the request carries no bearer authorization
header and is issued unauthenticated all the same. -/
theorem c2_amended_bearer_attachment (store : Storage) (op : Op) (req : Request)
    (h : issuedRequest store op = some req) :
    (∀ t, store.getItem "token" = some t → t ≠ "" →
      getHeader req.headers "Authorization" = some ("Bearer " ++ t)) ∧
    ((store.getItem "token" = none ∨ store.getItem "token" = some "") →
      getHeader req.headers "Authorization" = none) := by
  obtain ⟨base, hbase, hreq⟩ :
      ∃ base, requestOf op = some base ∧ requestInterceptor store base = req := by
    cases hb : requestOf op with
    | none => simp [issuedRequest, hb] at h
    | some base => exact ⟨base, rfl, by simpa [issuedRequest, hb] using h⟩
  constructor
  · intro t ht hne
    rw [← hreq, requestInterceptor_token store base t ht hne]
    exact getHeader_setHeader_self base.headers "Authorization" ("Bearer " ++ t)
  · intro hcase
    rw [← hreq, requestInterceptor_no_token store base hcase]
    exact requestOf_no_auth op base hbase

/-- The request issued by a profile fetch with token `T1` stored. -/
def reqC2 : Request :=
  { method := "get", url := "/student/profile", body := none,
    headers := [("Content-Type", "application/json"), ("Authorization", "Bearer T1")] }

/-- Concrete instance of the amended claim C2. -/
theorem c2_witness :
    getHeader reqC2.headers "Authorization" = some ("Bearer " ++ "T1") :=
  (c2_amended_bearer_attachment [("token", "T1")] Op.getStudentProfile reqC2 (by decide)).1
    "T1" (by decide) (by decide)

/-! ### Claim C3 -/

/-- A 2xx envelope with a non-success status and a server message. -/
def envC3 : Json := Json.mkObj
  [("status", .str "error"), ("message", .str "Attendance window closed")]

/-- Claim C3 is false on the code: on a 2xx response whose envelope status
is not `success`, `markAttendance` returns the envelope to the caller as a
success value instead of raising an error carrying the envelope message -
the only status inspection anywhere in the client is inside login. -/
theorem c3_counterexample :
    (runOp (Op.markAttendance (Json.mkObj [])) clientInit (.success envC3)).1 = .ok envC3 ∧
    (runOp (Op.markAttendance (Json.mkObj [])) clientInit (.success envC3)).1
      ≠ .error "Attendance window closed" := by decide

/-- Claim C3 as amended: operations other than login and logout never
inspect the envelope status - on a 2xx response they return the whole
envelope even when its status is not `success`; an error whose message
equals the envelope message field arises only when the server answers
non-2xx (the envelope then rides in the error response body and
`handleApiError` extracts its message), and this holds for every network
operation. -/
theorem c3_amended_status_ignored :
    (∀ op, isEnvelopePassthrough op = true → ∀ (s : ClientState) (body : Json),
      body.getField "status" ≠ Json.str "success" →
      (runOp op s (.success body)).1 = .ok body) ∧
    (∀ op, usesTransport op = true →
      ∀ (s : ClientState) (httpSt : Nat) (body : Json) (axMsg msg : String),
      body.getField "message" = Json.str msg → msg ≠ "" →
      (runOp op s (.httpError httpSt body axMsg)).1 = .error msg) :=
  ⟨fun op h s body _ => runOp_success_passthrough op h s body,
   fun op h s httpSt body axMsg msg hm hne =>
     runOp_httpError_message op h s httpSt body axMsg msg hm hne⟩

/-- Concrete instance of the amended claim C3. -/
theorem c3_witness :
    (runOp (Op.markAttendance (Json.mkObj [])) clientInit (.success envC3)).1 = .ok envC3 ∧
    (runOp (Op.markAttendance (Json.mkObj [])) clientInit
        (.httpError 400 envC3 "Request failed with status code 400")).1
      = .error "Attendance window closed" :=
  ⟨c3_amended_status_ignored.1 (Op.markAttendance (Json.mkObj [])) (by decide) clientInit envC3
      (by decide),
   c3_amended_status_ignored.2 (Op.markAttendance (Json.mkObj [])) (by decide) clientInit 400
      envC3 "Request failed with status code 400" "Attendance window closed" (by decide) (by decide)⟩

/-! ### Claim C7 -/

/-- The persistent-storage effect the specification assigns to each
operation: logout removes the token key, a login whose envelope passes the
success-and-token check stores the received token under the token key, and
nothing else touches storage, whatever the transport outcome. -/
def persistentEffect (op : Op) (store : Storage) (t : TransportOutcome) : Storage :=
  match op, t with
  | .logout, _ => store.removeItem "token"
  | .login _ _, .success body =>
    if body.getField "status" = Json.str "success" ∧ (body.getField "token").truthy = true then
      store.setItem "token" (body.getField "token").toJsString
    else store
  | .login _ _, _ => store
  | _, _ => store

/-- Claim C7: the code realises exactly the specified storage frame - only
a successful login writes (the received token under the token key), only
logout deletes (the token key), and every other operation, as well as any
failing or invalid login, leaves persistent storage unchanged on success
and on error alike. -/
theorem c7_storage_frame (op : Op) (s : ClientState) (t : TransportOutcome) :
    (runOp op s t).2.storage = persistentEffect op s.storage t := by
  cases op <;> cases t <;> try rfl
  rename_i u p body
  by_cases hc : body.getField "status" = Json.str "success" ∧
      (body.getField "token").truthy = true
  · simp [runOp, apiCall, persistentEffect, hc]
  · simp [runOp, apiCall, persistentEffect, hc]

/-! ### Claim C8 -/

/-- The interceptor touches only the headers: method, url and body of the
assembled request go out exactly as the operation built them. -/
theorem requestInterceptor_fields (store : Storage) (config : Request) :
    (requestInterceptor store config).method = config.method ∧
    (requestInterceptor store config).url = config.url ∧
    (requestInterceptor store config).body = config.body := by
  unfold requestInterceptor
  cases store.getItem "token" with
  | none => exact ⟨rfl, rfl, rfl⟩
  | some t => by_cases h : t ≠ "" <;> simp [h]

/-- The signup form state of the claim C8 scenario: a student signup with
every required field filled except `year`. -/
def studentFormMissingYear : FormData :=
  { id := "S123", name := "Alice", role := "student", email := "alice@example.com",
    password := "Secret1!", year := "", branch := "CSE", department := "", username := "alice" }

/-- Claim C8: the register operation performs no client-side validation -
for EVERY payload (in particular a student record omitting year) and every
storage state, the issued request is a post to `/shared/register` whose
body is exactly the given payload; the rejection of incomplete signup
forms lives in the login/signup screen, whose `validateForm` refuses a
student form with an empty year before the client is ever invoked. -/
theorem c8_register_no_validation :
    (∀ (payload : Json) (store : Storage),
      (issuedRequest store (Op.register payload)).map
          (fun r => (r.method, r.url, r.body))
        = some ("post", "/shared/register", some payload)) ∧
    validateForm false studentFormMissingYear = false := by
  constructor
  · intro payload store
    have h := requestInterceptor_fields store
      { method := "post", url := "/shared/register",
        body := some payload, headers := defaultHeaders }
    simp [issuedRequest, requestOf, Option.map, h.1, h.2.1, h.2.2]
  · decide

/-! ### Claim C10 -/

/-- One step never makes `currentUser` non-null: logout nulls it and every
other operation leaves it untouched. -/
theorem runOp_currentUser_eq (op : Op) (s : ClientState) (t : TransportOutcome) :
    (runOp op s t).2.currentUser = none ∨ (runOp op s t).2.currentUser = s.currentUser := by
  cases op <;> cases t <;>
    first
      | (left; rfl)
      | (right; rfl)
      | (right; simp only [runOp, apiCall]; split <;> rfl)

/-- A step from a state with null `currentUser` stays null. -/
theorem runOp_currentUser_none (op : Op) (s : ClientState) (t : TransportOutcome)
    (h : s.currentUser = none) : (runOp op s t).2.currentUser = none := by
  rcases runOp_currentUser_eq op s t with h2 | h2
  · exact h2
  · rw [h2, h]

/-- Along any script from a state with null `currentUser`, it stays
null. -/
theorem runScript_currentUser_none (ops : List (Op × TransportOutcome)) :
    ∀ s : ClientState, s.currentUser = none → (runScript ops s).currentUser = none := by
  induction ops with
  | nil => intro s h; exact h
  | cons p rest ih =>
    intro s h
    exact ih ((runOp p.1 s p.2).2) (runOp_currentUser_none p.1 s p.2 h)

/-- Claim C10: in every state reachable from construction (where the
private `currentUser` field is initialised to null), `currentUser` is
null - no operation, a successful login included, ever assigns it a
non-null value, and logout re-assigns null. -/
theorem c10_currentUser_always_null :
    (∀ (ops : List (Op × TransportOutcome)) (store0 : Storage),
      (runScript ops { storage := store0, currentUser := none }).currentUser = none) ∧
    (∀ (s : ClientState) (t : TransportOutcome),
      (runOp Op.logout s t).2.currentUser = none) ∧
    (∀ (op : Op) (s : ClientState) (t : TransportOutcome),
      (runOp op s t).2.currentUser = none ∨ (runOp op s t).2.currentUser = s.currentUser) :=
  ⟨fun ops store0 => runScript_currentUser_none ops { storage := store0, currentUser := none } rfl,
   fun _ _ => rfl,
   runOp_currentUser_eq⟩
